import Mathlib

/-!
Shallow embedding of the `slackbot` crate (src/lib.rs, src/event_handler.rs,
src/sender.rs) and proofs about its command parsing and dispatch behaviour.

Modelling decisions, all driven by the source:

* `serde_json::Value` is embedded as the inductive `Json`; a raw inbound
  payload is embedded as `Option Json`, the result of `serde_json::from_str`
  (`none` = deserialization failed).  Rust panics (`.unwrap()` on a failed
  deserialization, on `as_object`, and on the user-directory lookup) are
  embedded as `Except.error ()`, so a panic is distinguishable from every
  normal return.
* Rust `str::split_whitespace` is embedded as a tokenizer over the string's
  character list: it splits on runs of whitespace and never yields an empty
  token.  Rust `str::starts_with` is embedded as a character-list comparison.
* `std::collections::HashMap<String, Box<CommandHandler>>` is embedded as a
  key-unique association list: `insert` replaces any binding with the same
  key; `get` is the first (hence only) match.
* A handler (`Box<CommandHandler>`, i.e. `handle(&mut self, sender, args)`)
  is embedded as a function from the `Sender` capability and the argument
  list to the list of messages it passes to `respond_in_channel`, in order.
  This is exactly the observable power the Rust trait object has through the
  `Sender` it is given: its only output channel is `respond_in_channel`.
* The observable actions of one `on_receive` call are collected in a list of
  `Effect`s: `sent channel message` for each `RtmClient::send_message`, and
  `log line` for the `println!` at the end of the dispatch branch.
-/

namespace Slackbot

/-- Embedding of `serde_json::Value`. -/
inductive Json where
  | null : Json
  | bool : Bool → Json
  | num : Int → Json
  | str : String → Json
  | arr : List Json → Json
  | obj : List (String × Json) → Json

/-- Embedding of `Value::as_object` (`Some` only on a JSON object). -/
def Json.asObject : Json → Option (List (String × Json))
  | Json.obj fields => some fields
  | _ => none

/-- Embedding of `Map::get` on the deserialized object's field map.  The maps
produced by deserialization have unique keys, so first-match lookup agrees
with `serde_json`'s map lookup. -/
def getField (fields : List (String × Json)) (key : String) : Option Json :=
  List.lookup key fields

/-- Tokenizer underlying `str::split_whitespace`: `acc` holds the characters
of the token currently being read, in reverse. -/
def tokenizeAux : List Char → List Char → List (List Char)
  | [], acc => if acc = [] then [] else [acc.reverse]
  | c :: cs, acc =>
    if c.isWhitespace then
      if acc = [] then tokenizeAux cs []
      else acc.reverse :: tokenizeAux cs []
    else tokenizeAux cs (c :: acc)

/-- Embedding of Rust `str::split_whitespace` (as a list rather than a lazy
iterator): split on runs of whitespace, yielding no empty tokens. -/
def split_whitespace (s : String) : List String :=
  (tokenizeAux s.data []).map (fun cs => String.mk cs)

/-- Character-list core of `str::starts_with`. -/
def chars_start_with : List Char → List Char → Bool
  | _, [] => true
  | [], _ :: _ => false
  | c :: cs, p :: ps => c = p && chars_start_with cs ps

/-- Embedding of Rust `str::starts_with` (with a `&str` pattern): true iff
`pat`'s characters are a prefix of `s`'s characters. -/
def starts_with (s pat : String) : Bool :=
  chars_start_with s.data pat.data

/-- Embedding of `UserCommand` (src/event_handler.rs). -/
structure UserCommand where
  command : String
  args : List String
  user_id : String
  channel : String
deriving DecidableEq

/-- The part of `SlackBotEventHandler::parse_json_to_command` that runs after
the two `unwrap`s have succeeded, i.e. on the deserialized object's field
map.  It mirrors the source's nested `if let` chain: `type` must be the
string `"message"`, `text` must be a string starting with `"!" + bot_name`,
the text is split on whitespace with the first token (the prefix position)
skipped, the next token (or `"help"`) becomes the command, the rest the
args, and `user` and `channel` must be strings. -/
def parse_message_object (bot_name : String) (message : List (String × Json)) :
    Option UserCommand :=
  match getField message "type" with
  | some (Json.str ty) =>
    if ty = "message" then
      (match getField message "text" with
      | some (Json.str text) =>
        let bang_command := "!" ++ bot_name
        if starts_with text bang_command then
          let command_pieces := (split_whitespace text).drop 1
          let ca : String × List String :=
            match command_pieces with
            | c :: rest => (c, rest)
            | [] => ("help", [])
          (match getField message "user" with
           | some (Json.str user_id) =>
             (match getField message "channel" with
              | some (Json.str channel) =>
                some { command := ca.1, args := ca.2,
                       user_id := user_id, channel := channel }
              | _ => none)
           | _ => none)
        else none
      | _ => none)
    else none
  | _ => none

/-- Embedding of `SlackBotEventHandler::parse_json_to_command`.  The argument
is the result of `serde_json::from_str(json_str)` (`none` = deserialization
failed).  `Except.error ()` embeds the panics of the two `.unwrap()` calls:
on deserialization failure and on `data.as_object()` failing. -/
def parse_json_to_command (bot_name : String) (data : Option Json) :
    Except Unit (Option UserCommand) :=
  match data with
  | none => Except.error ()
  | some d =>
    match d.asObject with
    | none => Except.error ()
    | some message => Except.ok (parse_message_object bot_name message)

/-- Embedding of `slack::User`: exactly the fields the repository reads. -/
structure User where
  id : String
  name : String
deriving DecidableEq

/-- Observable action of one `on_receive` call: `sent channel message` for a
`RtmClient::send_message(channel, message)` call, `log line` for the
`println!` at the end of the dispatch branch. -/
inductive Effect where
  | sent : String → String → Effect
  | log : String → Effect
deriving DecidableEq

/-- Embedding of `slack::RtmClient`: the state the repository observes is its
user directory; outbound sends are recorded as `Effect`s. -/
structure RtmClient where
  users : List User

/-- Embedding of `RtmClient::get_users`. -/
def RtmClient.get_users (cli : RtmClient) : List User :=
  cli.users

/-- Embedding of `RtmClient::send_message(channel_id, message)`: the
observable effect of the send. -/
def RtmClient.send_message (_cli : RtmClient) (channel_id : String)
    (message : String) : Effect :=
  Effect.sent channel_id message

/-- Embedding of `ChannelWriter` (src/lib.rs): a channel id bound at
construction plus a borrow of the client. -/
structure ChannelWriter where
  channel_id : String
  client : RtmClient

/-- Embedding of `ChannelWriter::new`. -/
def ChannelWriter.new (channel_id : String) (client : RtmClient) :
    ChannelWriter :=
  { channel_id := channel_id, client := client }

/-- Embedding of `ChannelWriter::write`: delegates to
`client.send_message(self.channel_id, message)`. -/
def ChannelWriter.write (w : ChannelWriter) (message : String) : Effect :=
  w.client.send_message w.channel_id message

/-- Embedding of `Sender` (src/lib.rs): the reply capability handed to a
handler, holding the bound channel writer and the resolved sending user. -/
structure Sender where
  channel_writer : ChannelWriter
  user : User

/-- Embedding of `Sender::respond_in_channel`: delegates to the bound
channel writer's `write`. -/
def Sender.respond_in_channel (s : Sender) (message : String) : Effect :=
  s.channel_writer.write message

/-- Embedding of a `Box<CommandHandler>`: through the `Sender` capability a
handler's only output is the sequence of message strings it passes to
`respond_in_channel`, so a handler is a function producing that sequence
from the capability and the argument list. -/
def CommandHandler := Sender → List String → List String

/-- Embedding of `HashMap::insert` on the handler table: replace any
existing binding for the key (last registration wins). -/
def hashmap_insert (m : List (String × CommandHandler)) (k : String)
    (v : CommandHandler) : List (String × CommandHandler) :=
  (k, v) :: m.filter (fun p => p.1 != k)

/-- Embedding of `SlackBotEventHandler::on_receive`.  The `json_str`
argument is replaced by its deserialization result (see
`parse_json_to_command`).  `Except.error ()` embeds a panic: the parser's
unwraps, or the `.unwrap()` on the user-directory lookup
`cli.get_users().iter().find(|u| u.id == cmd.user_id)`.  On success the
returned list contains the messages the invoked handler sent (if any
handler was registered under the command's name) followed by the
`println!("Got command: ...")` log line. -/
def SlackBotEventHandler.on_receive (bot_name : String)
    (handlers : List (String × CommandHandler)) (cli : RtmClient)
    (data : Option Json) : Except Unit (List Effect) :=
  match parse_json_to_command bot_name data with
  | Except.error _ => Except.error ()
  | Except.ok none => Except.ok []
  | Except.ok (some cmd) =>
    match cli.get_users.find? (fun u => u.id == cmd.user_id) with
    | none => Except.error ()
    | some user =>
      let effects :=
        match List.lookup cmd.command handlers with
        | some handler =>
          let writer := ChannelWriter.new cmd.channel cli
          let sender : Sender := { channel_writer := writer, user := user }
          (handler sender cmd.args).map (fun msg =>
            sender.respond_in_channel msg)
        | none => []
      Except.ok (effects ++ [Effect.log ("Got command: " ++ cmd.command)])

/-- Embedding of `SlackBot` (src/lib.rs). -/
structure SlackBot where
  name : String
  token : String
  handlers : List (String × CommandHandler)

/-- Embedding of `SlackBot::new`. -/
def SlackBot.new (name token : String) : SlackBot :=
  { name := name, token := token, handlers := [] }

/-- Embedding of `SlackBot::on`: `self.handlers.insert(command_name, handler)`. -/
def SlackBot.on (bot : SlackBot) (command_name : String)
    (handler : CommandHandler) : SlackBot :=
  { bot with handlers := hashmap_insert bot.handlers command_name handler }

/-! ## Supporting lemmas about the tokenizer and the prefix check -/

/-- Every token produced by the tokenizer is a non-empty character list. -/
theorem tokenizeAux_ne_nil (cs : List Char) :
    ∀ (acc : List Char), ∀ t ∈ tokenizeAux cs acc, t ≠ [] := by
  induction cs with
  | nil =>
    intro acc t ht
    unfold tokenizeAux at ht
    by_cases hacc : acc = []
    · simp [hacc] at ht
    · simp [hacc] at ht
      subst ht
      simpa using hacc
  | cons c cs ih =>
    intro acc t ht
    unfold tokenizeAux at ht
    by_cases hw : c.isWhitespace
    · simp [hw] at ht
      by_cases hacc : acc = []
      · simp [hacc] at ht
        exact ih [] t ht
      · simp [hacc] at ht
        rcases ht with h1 | h2
        · subst h1; simpa using hacc
        · exact ih [] t h2
    · simp [hw] at ht
      exact ih (c :: acc) t ht

/-- On whitespace-free input the tokenizer yields the pending token followed
by the rest as one single token. -/
theorem tokenizeAux_no_ws (cs : List Char) :
    ∀ (acc : List Char), acc ≠ [] → (∀ c ∈ cs, c.isWhitespace = false) →
      tokenizeAux cs acc = [acc.reverse ++ cs] := by
  induction cs with
  | nil =>
    intro acc hacc _
    unfold tokenizeAux
    simp [hacc]
  | cons c cs ih =>
    intro acc hacc hws
    unfold tokenizeAux
    have hc : c.isWhitespace = false := hws c (by simp)
    simp only [hc]
    rw [ih (c :: acc) (by simp) (fun d hd => hws d (by simp [hd]))]
    simp

/-- `split_whitespace` never yields the empty string as a token. -/
theorem split_whitespace_mem_ne_empty (s : String) :
    ∀ t ∈ split_whitespace s, t ≠ "" := by
  intro t ht
  unfold split_whitespace at ht
  rcases List.mem_map.mp ht with ⟨cs, hcs, heq⟩
  have hne : cs ≠ [] := tokenizeAux_ne_nil s.data [] cs hcs
  intro hcontra
  apply hne
  have : (String.mk cs).data = ("" : String).data := by rw [heq, hcontra]
  simpa using this

/-- A non-empty string containing no whitespace splits into exactly itself. -/
theorem split_whitespace_no_ws (s : String) (h1 : s.data ≠ [])
    (h2 : ∀ c ∈ s.data, c.isWhitespace = false) :
    split_whitespace s = [s] := by
  unfold split_whitespace
  cases hd : s.data with
  | nil => exact absurd hd h1
  | cons c cs =>
    have hc : c.isWhitespace = false := h2 c (by rw [hd]; simp)
    unfold tokenizeAux
    simp only [hc]
    rw [tokenizeAux_no_ws cs [c] (by simp)
      (fun d hdm => h2 d (by rw [hd]; simp [hdm]))]
    simp [← hd]

/-- Every character list is a prefix of itself. -/
theorem chars_start_with_self (l : List Char) :
    chars_start_with l l = true := by
  induction l with
  | nil => rfl
  | cons c cs ih => simp [chars_start_with, ih]

/-- Every string starts with itself. -/
theorem starts_with_self (s : String) : starts_with s s = true := by
  unfold starts_with
  exact chars_start_with_self s.data

/-- Shape of a successful parse on an object's field map: exactly what the
nested `if let` chain of `parse_json_to_command` requires, and how the
resulting command and arguments are read off the whitespace split. -/
theorem parse_message_object_ok_shape (bot : String)
    (fields : List (String × Json)) (cmd : UserCommand)
    (h : parse_message_object bot fields = some cmd) :
    ∃ text, getField fields "type" = some (Json.str "message") ∧
      getField fields "text" = some (Json.str text) ∧
      starts_with text ("!" ++ bot) = true ∧
      getField fields "user" = some (Json.str cmd.user_id) ∧
      getField fields "channel" = some (Json.str cmd.channel) ∧
      cmd.command = (match (split_whitespace text).drop 1 with
        | c :: _ => c
        | [] => "help") ∧
      cmd.args = (match (split_whitespace text).drop 1 with
        | _ :: rest => rest
        | [] => []) := by
  unfold parse_message_object at h
  cases hty0 : getField fields "type" with
  | none => rw [hty0] at h; simp at h
  | some j =>
    rw [hty0] at h
    cases j with
    | str ty =>
      dsimp only at h
      by_cases hmsg : ty = "message"
      · subst hmsg
        rw [if_pos rfl] at h
        cases htext0 : getField fields "text" with
        | none => rw [htext0] at h; simp at h
        | some jt =>
          rw [htext0] at h
          cases jt with
          | str text =>
            dsimp only at h
            by_cases hsw : starts_with text ("!" ++ bot) = true
            · rw [if_pos hsw] at h
              cases huser0 : getField fields "user" with
              | none => rw [huser0] at h; simp at h
              | some ju =>
                rw [huser0] at h
                cases ju with
                | str uid =>
                  dsimp only at h
                  cases hchan0 : getField fields "channel" with
                  | none => rw [hchan0] at h; simp at h
                  | some jc =>
                    rw [hchan0] at h
                    cases jc with
                    | str chan =>
                      dsimp only at h
                      rw [Option.some.injEq] at h
                      subst h
                      refine ⟨text, rfl, rfl, hsw, rfl, rfl, ?_, ?_⟩
                      · cases hdrop : (split_whitespace text).drop 1 with
                        | nil => simp [hdrop]
                        | cons c rest => simp [hdrop]
                      · cases hdrop : (split_whitespace text).drop 1 with
                        | nil => simp [hdrop]
                        | cons c rest => simp [hdrop]
                    | null => simp at h
                    | bool b => simp at h
                    | num n => simp at h
                    | arr xs => simp at h
                    | obj fs => simp at h
                | null => simp at h
                | bool b => simp at h
                | num n => simp at h
                | arr xs => simp at h
                | obj fs => simp at h
            · rw [if_neg hsw] at h; simp at h
          | null => simp at h
          | bool b => simp at h
          | num n => simp at h
          | arr xs => simp at h
          | obj fs => simp at h
      · rw [if_neg hmsg] at h; simp at h
    | null => simp at h
    | bool b => simp at h
    | num n => simp at h
    | arr xs => simp at h
    | obj fs => simp at h

/-! ## The claims -/

/-- Property C1, counterexample.  The claim says an inbound command whose
`user_id` is not in the user directory is silently dropped with no error
surfacing from `on_receive`.  On the code this is false: the directory
lookup's result is unwrapped, so a missing user is a panic
(`Except.error ()` here), not a silent drop — even with a handler
registered under the command's name. -/
theorem on_receive_unknown_user_counterexample :
    SlackBotEventHandler.on_receive "bot"
      [("ping", fun _ _ => ["pong"])]
      { users := [{ id := "U2", name := "alice" }] }
      (some (Json.obj
        [("type", Json.str "message"), ("text", Json.str "!bot ping"),
         ("user", Json.str "U1"), ("channel", Json.str "C1")])) =
    Except.error () := by
  rfl

/-- Property C1, amended.  If the parser yields a command whose `user_id`
is not found in the client's user directory, `on_receive` panics (the
`.unwrap()` on the directory lookup): no handler is invoked and no effects
are produced, but the failure is a panic surfacing from `on_receive`, not
a silent drop. -/
theorem on_receive_unknown_user_panics (bot : String)
    (handlers : List (String × CommandHandler)) (cli : RtmClient)
    (data : Option Json) (cmd : UserCommand)
    (hparse : parse_json_to_command bot data = Except.ok (some cmd))
    (hfind : cli.get_users.find? (fun u => u.id == cmd.user_id) = none) :
    SlackBotEventHandler.on_receive bot handlers cli data =
      Except.error () := by
  unfold SlackBotEventHandler.on_receive
  rw [hparse]
  dsimp only
  rw [hfind]

/-- Witness for C1's amended theorem at a concrete input. -/
theorem on_receive_unknown_user_panics_witness :
    SlackBotEventHandler.on_receive "bot" [] { users := [] }
      (some (Json.obj
        [("type", Json.str "message"), ("text", Json.str "!bot help"),
         ("user", Json.str "U9"), ("channel", Json.str "C9")])) =
      Except.error () :=
  on_receive_unknown_user_panics "bot" [] { users := [] }
    (some (Json.obj
      [("type", Json.str "message"), ("text", Json.str "!bot help"),
       ("user", Json.str "U9"), ("channel", Json.str "C9")]))
    { command := "help", args := [], user_id := "U9", channel := "C9" }
    (by rfl) (by rfl)

/-- Property C2, counterexample.  The claim says no command is produced
when the `"!" + bot_name` prefix is immediately followed by a
non-whitespace character.  On the code this is false: with bot name
`"bot"` and text `"!bots ping"` the plain `starts_with` check passes and
a command (`"ping"`) is produced. -/
theorem parse_no_word_boundary_counterexample :
    parse_json_to_command "bot" (some (Json.obj
      [("type", Json.str "message"), ("text", Json.str "!bots ping"),
       ("user", Json.str "U1"), ("channel", Json.str "C1")])) =
    Except.ok (some { command := "ping", args := [],
                      user_id := "U1", channel := "C1" }) := by
  rfl

/-- Property C2, amended.  The parser returns `Some(Command)` only if the
payload is an object whose `type` field is the string `"message"` and
whose `text` field is a string starting with `"!" + bot_name` — a plain
prefix match with no word-boundary requirement. -/
theorem parse_some_requires_message_and_prefix_match (bot : String)
    (data : Json) (cmd : UserCommand)
    (h : parse_json_to_command bot (some data) = Except.ok (some cmd)) :
    ∃ fields text, data = Json.obj fields ∧
      getField fields "type" = some (Json.str "message") ∧
      getField fields "text" = some (Json.str text) ∧
      starts_with text ("!" ++ bot) = true := by
  cases data with
  | obj fields =>
    simp only [parse_json_to_command, Json.asObject, Except.ok.injEq] at h
    rcases parse_message_object_ok_shape bot fields cmd h with
      ⟨text, h1, h2, h3, _⟩
    exact ⟨fields, text, rfl, h1, h2, h3⟩
  | null => simp [parse_json_to_command, Json.asObject] at h
  | bool b => simp [parse_json_to_command, Json.asObject] at h
  | num n => simp [parse_json_to_command, Json.asObject] at h
  | str s => simp [parse_json_to_command, Json.asObject] at h
  | arr xs => simp [parse_json_to_command, Json.asObject] at h

/-- Witness for C2's amended theorem at a concrete input. -/
theorem parse_some_requires_message_and_prefix_match_witness :
    ∃ fields text,
      Json.obj [("type", Json.str "message"), ("text", Json.str "!bot ping"),
                ("user", Json.str "U1"), ("channel", Json.str "C1")] =
        Json.obj fields ∧
      getField fields "type" = some (Json.str "message") ∧
      getField fields "text" = some (Json.str text) ∧
      starts_with text ("!" ++ "bot") = true :=
  parse_some_requires_message_and_prefix_match "bot"
    (Json.obj [("type", Json.str "message"), ("text", Json.str "!bot ping"),
               ("user", Json.str "U1"), ("channel", Json.str "C1")])
    { command := "ping", args := [], user_id := "U1", channel := "C1" }
    (by rfl)

/-- Property C3, counterexample.  The claim says `user_id` is non-empty
whenever `Some(Command)` is returned.  On the code this is false: the
parser only checks that `user` is a JSON string, so an empty `user` field
yields a command with an empty `user_id`. -/
theorem parse_empty_user_id_counterexample :
    parse_json_to_command "bot" (some (Json.obj
      [("type", Json.str "message"), ("text", Json.str "!bot"),
       ("user", Json.str ""), ("channel", Json.str "C1")])) =
    Except.ok (some { command := "help", args := [],
                      user_id := "", channel := "C1" }) := by
  rfl

/-- Property C3, amended.  When `Some(Command)` is returned the command's
`name` is a non-empty string (it is either a whitespace-split token or the
literal `"help"`); `user_id` and `channel_id` are the payload's `user` and
`channel` strings taken verbatim and may be empty, as may `arguments`. -/
theorem parse_some_command_name_nonempty (bot : String) (data : Option Json)
    (cmd : UserCommand)
    (h : parse_json_to_command bot data = Except.ok (some cmd)) :
    cmd.command ≠ "" := by
  cases data with
  | none => simp [parse_json_to_command] at h
  | some d =>
    cases d with
    | obj fields =>
      simp only [parse_json_to_command, Json.asObject, Except.ok.injEq] at h
      rcases parse_message_object_ok_shape bot fields cmd h with
        ⟨text, _, _, _, _, _, hcmd, _⟩
      rw [hcmd]
      cases hdrop : (split_whitespace text).drop 1 with
      | nil => decide
      | cons c rest =>
        have hc : c ∈ split_whitespace text :=
          List.mem_of_mem_drop (n := 1) (by rw [hdrop]; simp)
        simpa using split_whitespace_mem_ne_empty text c hc
    | null => simp [parse_json_to_command, Json.asObject] at h
    | bool b => simp [parse_json_to_command, Json.asObject] at h
    | num n => simp [parse_json_to_command, Json.asObject] at h
    | str s => simp [parse_json_to_command, Json.asObject] at h
    | arr xs => simp [parse_json_to_command, Json.asObject] at h

/-- Witness for C3's amended theorem at a concrete input. -/
theorem parse_some_command_name_nonempty_witness :
    UserCommand.command { command := "echo", args := ["hi"],
                          user_id := "U1", channel := "C1" } ≠ "" :=
  parse_some_command_name_nonempty "bot"
    (some (Json.obj [("type", Json.str "message"),
                     ("text", Json.str "!bot echo hi"),
                     ("user", Json.str "U1"), ("channel", Json.str "C1")]))
    { command := "echo", args := ["hi"], user_id := "U1", channel := "C1" }
    (by rfl)

/-- Property C4.  A raw payload that fails to deserialize makes the parser
fail fatally (the `.unwrap()` panic, `Except.error ()` here) rather than
return the "no command" result: the failure is not treated as `None`. -/
theorem parse_malformed_payload_fatal (bot : String) :
    parse_json_to_command bot none = Except.error () ∧
    ∀ r : Option UserCommand, parse_json_to_command bot none ≠ Except.ok r := by
  refine ⟨rfl, fun r h => ?_⟩
  simp [parse_json_to_command] at h

/-- Witness for C4's theorem at a concrete input. -/
theorem parse_malformed_payload_fatal_witness :
    parse_json_to_command "bot" none = Except.error () ∧
    parse_json_to_command "bot" none ≠ Except.ok none :=
  ⟨(parse_malformed_payload_fatal "bot").1,
   (parse_malformed_payload_fatal "bot").2 none⟩

/-- Property C5.  A payload that deserializes to an object whose `type`
field is absent, not a string, or a string other than `"message"` makes
the parser return no command. -/
theorem parse_type_not_message_none (bot : String)
    (fields : List (String × Json))
    (h : getField fields "type" ≠ some (Json.str "message")) :
    parse_json_to_command bot (some (Json.obj fields)) = Except.ok none := by
  simp only [parse_json_to_command, Json.asObject]
  congr 1
  unfold parse_message_object
  cases hty0 : getField fields "type" with
  | none => rfl
  | some j =>
    cases j with
    | str ty =>
      dsimp only
      rw [if_neg (fun he => h (by rw [hty0, he]))]
    | null => rfl
    | bool b => rfl
    | num n => rfl
    | arr xs => rfl
    | obj fs => rfl

/-- Witness for C5's theorem at a concrete input (a `presence_change`
event carrying otherwise command-like text). -/
theorem parse_type_not_message_none_witness :
    getField ([("type", Json.str "presence_change"),
               ("text", Json.str "!bot ping")]) "type" ≠
        some (Json.str "message") ∧
    parse_json_to_command "bot" (some (Json.obj
      [("type", Json.str "presence_change"), ("text", Json.str "!bot ping")])) =
      Except.ok none := by
  have h : getField ([("type", Json.str "presence_change"),
      ("text", Json.str "!bot ping")]) "type" ≠ some (Json.str "message") := by
    intro hcontra
    rw [show getField ([("type", Json.str "presence_change"),
        ("text", Json.str "!bot ping")]) "type" =
        some (Json.str "presence_change") from rfl] at hcontra
    injection hcontra with h1
    injection h1 with h2
    exact absurd h2 (by decide)
  exact ⟨h, parse_type_not_message_none "bot" _ h⟩

/-- Property C6.  A message payload whose text is exactly the prefix
`"!" + bot_name` (for a whitespace-free bot name, so the text is the
prefix token alone), with string `user` and `channel` fields, parses to a
command named `"help"` with empty arguments. -/
theorem parse_prefix_only_gives_help (bot u c : String)
    (fields : List (String × Json))
    (hbot : ∀ ch ∈ bot.data, ch.isWhitespace = false)
    (hty : getField fields "type" = some (Json.str "message"))
    (htext : getField fields "text" = some (Json.str ("!" ++ bot)))
    (huser : getField fields "user" = some (Json.str u))
    (hchan : getField fields "channel" = some (Json.str c)) :
    parse_json_to_command bot (some (Json.obj fields)) =
      Except.ok (some { command := "help", args := [],
                        user_id := u, channel := c }) := by
  simp only [parse_json_to_command, Json.asObject]
  congr 1
  unfold parse_message_object
  rw [hty]
  dsimp only
  rw [if_pos rfl, htext]
  dsimp only
  have hsw : starts_with ("!" ++ bot) ("!" ++ bot) = true := starts_with_self _
  rw [if_pos hsw]
  have hsplit : split_whitespace ("!" ++ bot) = ["!" ++ bot] := by
    apply split_whitespace_no_ws
    · rw [String.data_append]
      simp
    · intro ch hch
      rw [String.data_append] at hch
      rcases List.mem_append.mp hch with h1 | h2
      · have : ch = '!' := by simpa using h1
        subst this
        decide
      · exact hbot ch h2
  rw [hsplit, huser, hchan]
  rfl

/-- Witness for C6's theorem at a concrete input. -/
theorem parse_prefix_only_gives_help_witness :
    parse_json_to_command "bot" (some (Json.obj
      [("type", Json.str "message"), ("text", Json.str "!bot"),
       ("user", Json.str "U1"), ("channel", Json.str "C1")])) =
      Except.ok (some { command := "help", args := [],
                        user_id := "U1", channel := "C1" }) :=
  parse_prefix_only_gives_help "bot" "U1" "C1"
    [("type", Json.str "message"), ("text", Json.str "!bot"),
     ("user", Json.str "U1"), ("channel", Json.str "C1")]
    (by decide) (by rfl) (by rfl) (by rfl) (by rfl)

/-- Property C7.  With bot name `"bot"` and text `"!bot echo hello world"`
the parser splits on whitespace, skips the prefix token, takes `"echo"`
as the command and the remaining tokens `["hello", "world"]`, in order,
as the arguments. -/
theorem parse_echo_hello_world :
    parse_json_to_command "bot" (some (Json.obj
      [("type", Json.str "message"),
       ("text", Json.str "!bot echo hello world"),
       ("user", Json.str "U1"), ("channel", Json.str "C1")])) =
    Except.ok (some { command := "echo", args := ["hello", "world"],
                      user_id := "U1", channel := "C1" }) := by
  rfl

/-- Property C8.  Registering two handlers in sequence under the same name
leaves the registry exactly as if only the second had been registered: the
first is overwritten without error, lookup finds only the second, and
every dispatch behaves as with the second alone. -/
theorem on_same_name_second_wins (bot : SlackBot) (k : String)
    (h1 h2 : CommandHandler) :
    ((bot.on k h1).on k h2).handlers = (bot.on k h2).handlers ∧
    List.lookup k ((bot.on k h1).on k h2).handlers = some h2 ∧
    ∀ (cli : RtmClient) (data : Option Json),
      SlackBotEventHandler.on_receive bot.name
          ((bot.on k h1).on k h2).handlers cli data =
        SlackBotEventHandler.on_receive bot.name
          (bot.on k h2).handlers cli data := by
  have hmap : ((bot.on k h1).on k h2).handlers = (bot.on k h2).handlers := by
    simp only [SlackBot.on, hashmap_insert]
    rw [List.filter_cons]
    simp [List.filter_filter]
  refine ⟨hmap, ?_, fun cli data => by rw [hmap]⟩
  simp [SlackBot.on, hashmap_insert, List.lookup]

/-- Witness for C8's theorem at a concrete input. -/
theorem on_same_name_second_wins_witness :
    (((SlackBot.new "bot" "tok").on "greet" (fun _ _ => ["first"])).on
        "greet" (fun _ _ => ["second"])).handlers =
      ((SlackBot.new "bot" "tok").on "greet" (fun _ _ => ["second"])).handlers ∧
    List.lookup "greet"
      ((((SlackBot.new "bot" "tok").on "greet" (fun _ _ => ["first"])).on
        "greet" (fun _ _ => ["second"]))).handlers =
      some (fun _ _ => ["second"]) :=
  ⟨(on_same_name_second_wins (SlackBot.new "bot" "tok") "greet"
      (fun _ _ => ["first"]) (fun _ _ => ["second"])).1,
   (on_same_name_second_wins (SlackBot.new "bot" "tok") "greet"
      (fun _ _ => ["first"]) (fun _ _ => ["second"])).2.1⟩

/-- Property C9.  Dispatching a parsed command whose sender is in the user
directory but whose name has no registered handler invokes no handler,
sends no reply and raises no failure: the only observable action is the
`println!` log line, which is neither a reply nor an error. -/
theorem on_receive_unknown_command_silent (bot : String)
    (handlers : List (String × CommandHandler)) (cli : RtmClient)
    (data : Option Json) (cmd : UserCommand) (user : User)
    (hparse : parse_json_to_command bot data = Except.ok (some cmd))
    (hfind : cli.get_users.find? (fun u => u.id == cmd.user_id) = some user)
    (hlook : List.lookup cmd.command handlers = none) :
    SlackBotEventHandler.on_receive bot handlers cli data =
      Except.ok [Effect.log ("Got command: " ++ cmd.command)] := by
  unfold SlackBotEventHandler.on_receive
  rw [hparse]
  dsimp only
  rw [hfind]
  dsimp only
  rw [hlook]
  rfl

/-- Witness for C9's theorem at a concrete input. -/
theorem on_receive_unknown_command_silent_witness :
    SlackBotEventHandler.on_receive "bot" []
      { users := [{ id := "U1", name := "alice" }] }
      (some (Json.obj
        [("type", Json.str "message"), ("text", Json.str "!bot frobnicate"),
         ("user", Json.str "U1"), ("channel", Json.str "C1")])) =
      Except.ok [Effect.log ("Got command: " ++ "frobnicate")] :=
  on_receive_unknown_command_silent "bot" []
    { users := [{ id := "U1", name := "alice" }] }
    (some (Json.obj
      [("type", Json.str "message"), ("text", Json.str "!bot frobnicate"),
       ("user", Json.str "U1"), ("channel", Json.str "C1")]))
    { command := "frobnicate", args := [], user_id := "U1", channel := "C1" }
    { id := "U1", name := "alice" }
    (by rfl) (by rfl) (by rfl)

/-- Property C10.  Whatever handler table is registered and whatever
messages the invoked handler passes to `respond_in_channel`, every send
performed during one dispatch targets exactly the channel of the command
that produced the reply capability: the bound `channel_id` is passed to
`send_message` unchanged and no other channel can be reached. -/
theorem dispatch_sends_only_to_command_channel (bot : String)
    (handlers : List (String × CommandHandler)) (cli : RtmClient)
    (data : Option Json) (cmd : UserCommand) (effs : List Effect)
    (hparse : parse_json_to_command bot data = Except.ok (some cmd))
    (hrun : SlackBotEventHandler.on_receive bot handlers cli data =
      Except.ok effs)
    (ch msg : String) (hmem : Effect.sent ch msg ∈ effs) :
    ch = cmd.channel := by
  unfold SlackBotEventHandler.on_receive at hrun
  rw [hparse] at hrun
  dsimp only at hrun
  cases hfind : cli.get_users.find? (fun u => u.id == cmd.user_id) with
  | none => rw [hfind] at hrun; cases hrun
  | some user =>
    rw [hfind] at hrun
    dsimp only at hrun
    rw [Except.ok.injEq] at hrun
    subst hrun
    rcases List.mem_append.mp hmem with hl | hr
    · cases hlook : List.lookup cmd.command handlers with
      | none => rw [hlook] at hl; simp at hl
      | some handler =>
        rw [hlook] at hl
        rcases List.mem_map.mp hl with ⟨m, _, heq⟩
        simp only [Sender.respond_in_channel, ChannelWriter.write,
          RtmClient.send_message, ChannelWriter.new] at heq
        cases heq
        rfl
    · simp at hr

/-- Witness for C10's theorem at a concrete input: an `echo`-style handler
that sends each argument as its own message; both sends land on `"C1"`,
the command's channel. -/
theorem dispatch_sends_only_to_command_channel_witness :
    SlackBotEventHandler.on_receive "bot" [("echo", fun _ args => args)]
      { users := [{ id := "U1", name := "alice" }] }
      (some (Json.obj
        [("type", Json.str "message"),
         ("text", Json.str "!bot echo hello world"),
         ("user", Json.str "U1"), ("channel", Json.str "C1")])) =
      Except.ok [Effect.sent "C1" "hello", Effect.sent "C1" "world",
                 Effect.log ("Got command: " ++ "echo")] ∧
    "C1" = "C1" :=
  ⟨by rfl,
   dispatch_sends_only_to_command_channel "bot"
    [("echo", fun _ args => args)]
    { users := [{ id := "U1", name := "alice" }] }
    (some (Json.obj
      [("type", Json.str "message"),
       ("text", Json.str "!bot echo hello world"),
       ("user", Json.str "U1"), ("channel", Json.str "C1")]))
    { command := "echo", args := ["hello", "world"],
      user_id := "U1", channel := "C1" }
    [Effect.sent "C1" "hello", Effect.sent "C1" "world",
     Effect.log ("Got command: " ++ "echo")]
    (by rfl) (by rfl) "C1" "hello" (by decide)⟩

end Slackbot
